import Mathlib

/-!
Verification of the concurrent fetch-verify-extract pipeline of
src/aqt/installer.py: the orchestrator `run_installer`, the per-package worker
`installer`, and the CLI entry `Cli.run`, embedded shallowly. Effects (the
worker pool, the logging listener, printing) are recorded as an ordered trace
of events; the outcome of `pool.starmap` is an explicit input, since the pool
runs in other processes.
-/

namespace Aqt

/-- One resolved package descriptor (`QtPackage`, aqt/archives.py). Only the
fields read by `run_installer` and `installer` are embedded. -/
structure QtPackage where
  name : String
  base_url : String
  archive : String
  archive_path : String
  archive_install_path : String
  package_desc : String
deriving Repr, DecidableEq

/-- An exception observed by the `try` block of `run_installer`
(src/aqt/installer.py:1481-1529). Python's class hierarchy is rendered by
disjoint constructors: `permissionError` is the `OSError` subclass
`PermissionError`; `osError cls en` is any other `OSError` (dynamic class name
`cls`, `errno` attribute `en`); `exception cls` is any other exception class
deriving from `Exception`; `keyboardInterrupt` and `systemExit` derive only
from `BaseException`, so the `except Exception` clause never matches them. -/
inductive PoolExc where
  | permissionError
  | osError (cls : String) (errnoVal : Option Int)
  | keyboardInterrupt
  | memoryError
  | exception (cls : String)
  | systemExit
deriving Repr, DecidableEq

/-- The `__class__.__name__` of the exception, logged by
`close_worker_pool_on_exception` (line 1477). -/
def PoolExc.clsName : PoolExc → String
  | .permissionError => "PermissionError"
  | .osError cls _ => cls
  | .keyboardInterrupt => "KeyboardInterrupt"
  | .memoryError => "MemoryError"
  | .exception cls => cls
  | .systemExit => "SystemExit"

/-- Whether one of the `except` clauses of `run_installer` matches the
exception, so that `close_worker_pool_on_exception` runs (lines 1485-1529):
every clause names a subclass of `Exception` except the explicit
`KeyboardInterrupt` clause; a `BaseException` outside both, such as
`SystemExit`, matches none of them. -/
def PoolExc.caught : PoolExc → Bool
  | .systemExit => false
  | _ => true

/-- The error, if any, with which `run_installer` returns control to its
caller: one of the typed errors of aqt/exceptions.py carrying a message and a
`suggested_action` list, or the original exception re-raised unchanged. -/
inductive Raised where
  | diskAccessNotPermitted (msg : String) (suggested_action : List String)
  | outOfDiskSpace (msg : String) (suggested_action : List String)
  | cliKeyboardInterrupt (msg : String)
  | outOfMemory (msg : String) (suggested_action : List String)
  | reraised (e : PoolExc)
deriving Repr, DecidableEq

/-- The value of `errno.ENOSPC` (no space left on device). -/
def ENOSPC : Int := 28

/-- The observable actions of `run_installer`, in program order. -/
inductive Event where
  | logInfo (msg : String)
  | logWarning (msg : String)
  | listenerStart
  | poolCreate (processes : Nat) (maxtasksperchild : Nat)
  | poolStarmap
  | poolClose
  | poolJoin
  | poolTerminate
  | enqueueSentinel
  | listenerStop
deriving Repr, DecidableEq

/-- The platform test `is_64bit` (line 1429): `sys.maxsize > 1 << 32`. -/
def is_64bit (maxsize : Nat) : Bool := decide (maxsize > 1 <<< 32)

/-- Leftmost match of the regex `Size: ([^,]+)` applied after the first list
element: `parts` is the tail of `desc.splitOn "Size: "`, so the element
`p :: rest` stands for an occurrence of "Size: " followed by the text
`intercalate "Size: " (p :: rest)`. The capture is that text up to the first
comma; when it is empty (a comma right after "Size: "), the regex engine moves
on to the next occurrence. -/
def sizeMatch : List String → Option String
  | [] => none
  | p :: rest =>
    let tok := ((String.intercalate "Size: " (p :: rest)).splitOn ",").headD ""
    if tok.isEmpty then sizeMatch rest else some tok

/-- The search `re.search(r"Size: ([^,]+)", desc)` of line 1450. -/
def searchSize (desc : String) : Option String :=
  match desc.splitOn "Size: " with
  | [] => none
  | _ :: parts => sizeMatch parts

/-- The part of a dry-run report line before any destination arrow
(lines 1447-1453): package name, remote archive path, and the size capture in
parentheses when `package_desc` is nonempty and the regex matches. -/
def dryRunLineBase (arc : QtPackage) : String :=
  let base := "  - " ++ arc.name ++ ": " ++ arc.archive_path
  match (if arc.package_desc ≠ "" then searchSize arc.package_desc else none) with
  | some s => base ++ " (" ++ s ++ ")"
  | none => base

/-- The Python `str.strip()`: the string with leading and trailing whitespace
removed. -/
def pyStrip (s : String) : String :=
  String.mk (List.reverse (List.dropWhile Char.isWhitespace
    (List.reverse (List.dropWhile Char.isWhitespace s.toList))))

/-- One dry-run report line (lines 1447-1457): the destination suffix
`" -> " ++ archive_install_path` is appended only when `archive_install_path`
is truthy and nonblank after stripping. -/
def dryRunLine (arc : QtPackage) : String :=
  if arc.archive_install_path ≠ "" ∧ pyStrip arc.archive_install_path ≠ "" then
    dryRunLineBase arc ++ " -> " ++ arc.archive_install_path
  else dryRunLineBase arc

/-- The full dry-run report (lines 1444-1459): a header, one line per package,
and a total count line. -/
def dryRunOutput (archives : List QtPackage) : List String :=
  "DRY RUN: Would download and install the following:"
    :: (List.map dryRunLine archives
        ++ ["Total packages: " ++ toString archives.length])

/-- The positional arguments `(processes, maxtasksperchild)` handed to
`ctx.Pool` (lines 1470-1473): `Pool(Settings.concurrency, init_worker_sh, (), 4)`
when `is_64bit()` and `Pool(Settings.concurrency, init_worker_sh, (), 1)`
otherwise. The first positional parameter of `multiprocessing.Pool` is the
process count and the fourth is `maxtasksperchild`. -/
def poolArgs (is64 : Bool) (concurrency : Nat) : Nat × Nat :=
  if is64 then (concurrency, 4) else (concurrency, 1)

/-- The alternate-extractor suggestion shared by both `OutOfMemory` branches
(lines 1510-1513). -/
def alt_extractor_msg : String :=
  "Please try using the '--external' flag to specify an alternate 7z extraction tool " ++
  "(see https://aqtinstall.readthedocs.io/en/latest/cli.html#cmdoption-list-tool-external)"

/-- The configuration documentation URL of the concurrent `OutOfMemory` branch
(line 1515). -/
def memory_docs_url : String :=
  "https://aqtinstall.readthedocs.io/en/stable/configuration.html#configuration"

/-- The `except` chain of `run_installer` (lines 1485-1529) as a classifier:
what the function raises when `pool.starmap` raises the given exception.
`PermissionError` becomes `DiskAccessNotPermitted`; any other `OSError` becomes
`OutOfDiskSpace` when its `errno` is `ENOSPC` and is re-raised unchanged
otherwise; `KeyboardInterrupt` becomes `CliKeyboardInterrupt`; `MemoryError`
becomes `OutOfMemory` with message and suggestions depending on whether
`Settings.concurrency > 1`; any other `Exception` is re-raised unchanged, and a
`BaseException` matching no clause propagates unchanged as well. -/
def classify (base_dir : String) (concurrency : Nat) : PoolExc → Raised
  | .permissionError =>
    .diskAccessNotPermitted ("Failed to write to base directory at " ++ base_dir)
      ["Check that the destination is writable and does not already contain files owned by another user."]
  | .osError cls en =>
    if en = some ENOSPC then
      .outOfDiskSpace "Insufficient disk space to complete installation."
        ["Check available disk space.", "Check size requirements for installation."]
    else .reraised (.osError cls en)
  | .keyboardInterrupt => .cliKeyboardInterrupt "Installer halted by keyboard interrupt."
  | .memoryError =>
    if concurrency > 1 then
      .outOfMemory "Out of memory when downloading and extracting archives in parallel."
        ["Please reduce your 'concurrency' setting (see " ++ memory_docs_url ++ ")",
         alt_extractor_msg]
    else
      .outOfMemory "Out of memory when downloading and extracting archives."
        ["Please free up more memory.", alt_extractor_msg]
  | .exception cls => .reraised (.exception cls)
  | .systemExit => .reraised .systemExit

/-- The orchestrator `run_installer` (lines 1434-1533) as a function of its
arguments, the ambient `Settings.concurrency`, the platform word size, and the
outcome of `pool.starmap(installer, tasks)` (`.ok ()` when every worker task
returns, `.error e` when the pool re-raises `e` in the parent process).
Returns the ordered trace of observable actions and the result, `.error r`
meaning `run_installer` raises `r` to its caller. With `dry_run` set it
returns before the listener or the pool exists (lines 1443-1460); otherwise
the `finally` block (lines 1530-1533) enqueues the log sentinel and stops the
listener last on every path, and `close_worker_pool_on_exception`
(lines 1475-1479) terminates and joins the pool on every caught failure. -/
def run_installer (archives : List QtPackage) (base_dir : String)
    (concurrency : Nat) (is64 : Bool) (dry_run : Bool)
    (starmapOutcome : Except PoolExc Unit) : List Event × Except Raised Unit :=
  if dry_run then
    (List.map Event.logInfo (dryRunOutput archives), .ok ())
  else
    let args := poolArgs is64 concurrency
    let pre : List Event := [.listenerStart, .poolCreate args.1 args.2, .poolStarmap]
    let teardown : List Event := [.enqueueSentinel, .listenerStop]
    match starmapOutcome with
    | .ok _ => (pre ++ [.poolClose, .poolJoin] ++ teardown, .ok ())
    | .error e =>
      if e.caught then
        (pre ++ [.logWarning ("Caught " ++ e.clsName ++ ", terminating installer workers"),
                 .poolTerminate, .poolJoin] ++ teardown,
         .error (classify base_dir concurrency e))
      else
        (pre ++ teardown, .error (classify base_dir concurrency e))

/-- An exception raised inside a worker task's download or extraction step.
`connectionError` stands for the connection-failure class that
`retry_on_bad_connection` treats as retryable by mirror fallback; the archive
error classes come from aqt/exceptions.py. -/
inductive WorkerExc where
  | archiveChecksumError
  | archiveDownloadError
  | connectionError
  | archiveExtractionError (msg : String)
  | otherExc (cls : String)
deriving Repr, DecidableEq

/-- Modelled from the spec: `retry_on_bad_connection` (aqt/helper.py, not under
src/) is the "retry with alternate resource provider" combinator — on a
connection failure it asks for the next candidate base URL and retries the
download, exhausting the candidates before failing terminally with the
transfer failure `ArchiveDownloadError`; any other error propagates unchanged.
`urls` is the primary base URL followed by the fallback mirrors. -/
def retry_on_bad_connection {α : Type} (download : String → Except WorkerExc α) :
    List String → Except WorkerExc α
  | [] => .error .archiveDownloadError
  | url :: rest =>
    match download url with
    | .ok a => .ok a
    | .error .connectionError => retry_on_bad_connection download rest
    | .error e => .error e

/-- Modelled from the spec: `retry_on_errors` (aqt/helper.py, not under src/)
runs the action and, when it fails with an error of one of the acceptable
classes, re-attempts it up to the configured maximum count of retries; an
unacceptable error, or an acceptable error once the retries are exhausted,
propagates. `attempt` numbers the attempts from 0. -/
def retry_on_errors {α : Type} (action : Nat → Except WorkerExc α)
    (acceptable : WorkerExc → Bool) : Nat → Nat → Except WorkerExc α
  | 0, attempt => action attempt
  | retriesLeft + 1, attempt =>
    match action attempt with
    | .ok a => .ok a
    | .error e =>
      if acceptable e then retry_on_errors action acceptable retriesLeft (attempt + 1)
      else .error e

/-- Membership in the `acceptable_errors=(ArchiveChecksumError,)` tuple of the
call site at line 1579. -/
def isArchiveChecksumError : WorkerExc → Bool
  | .archiveChecksumError => true
  | _ => false

/-- The download step of the worker `installer` (lines 1572-1582):
`retry_on_errors` around `retry_on_bad_connection(download_bin, base_url)`,
with `ArchiveChecksumError` the only acceptable error class and
`Settings.max_retries_on_checksum_error` the retry count. `download i url` is
the outcome of `download_bin` against base URL `url` during outer attempt `i`;
`fallbacks` are the mirror candidates after `base_url`. -/
def installerDownload {α : Type} (download : Nat → String → Except WorkerExc α)
    (base_url : String) (fallbacks : List String)
    (max_retries_on_checksum_error : Nat) : Except WorkerExc α :=
  retry_on_errors
    (fun i => retry_on_bad_connection (download i) (base_url :: fallbacks))
    isArchiveChecksumError max_retries_on_checksum_error 0

/-- A downloaded archive on disk: its file name, extension included, and its
byte content. -/
structure ArchiveFile where
  fileName : String
  content : List Nat
deriving Repr, DecidableEq

/-- Modelled from the spec: `tarfile.is_tarfile` (Python standard library,
outside this repository) recognises a tar-family container from the file
content, rendered here by the POSIX tar magic "ustar" at byte offset 257.
The file name plays no role. -/
def is_tarfile (content : List Nat) : Bool :=
  decide (List.take 5 (List.drop 257 content) = [117, 115, 116, 97, 114])

/-- Modelled from the spec: `zipfile.is_zipfile` (Python standard library,
outside this repository) recognises a zip container from the file content,
rendered here by the local-file-header signature PK 03 04. The file name
plays no role. -/
def is_zipfile (content : List Nat) : Bool :=
  decide (List.take 4 content = [80, 75, 3, 4])

/-- The extraction strategy chosen by the worker (lines 1585-1600). -/
inductive ExtractChoice where
  | tarPath
  | zipPath
  | py7zPath
  | externalPath (cmd : String)
deriving Repr, DecidableEq

/-- The strategy dispatch of the worker `installer` (lines 1585-1600):
tar-family content first, then zip content, then the built-in py7zr library
when no external `command` was configured, else the configured external
command. -/
def chooseExtraction (archive : ArchiveFile) (command : Option String) : ExtractChoice :=
  if is_tarfile archive.content then .tarPath
  else if is_zipfile archive.content then .zipPath
  else
    match command with
    | none => .py7zPath
    | some cmd => .externalPath cmd

/-- Whether a relative member path escapes the destination directory: walking
its segments, a ".." that would climb above the destination root escapes.
`depth` counts the directories descended so far. -/
def escapesAt : List String → Nat → Bool
  | [], _ => false
  | s :: rest, depth =>
    if s = ".." then
      match depth with
      | 0 => true
      | d + 1 => escapesAt rest d
    else if s = "." ∨ s = "" then escapesAt rest depth
    else escapesAt rest (depth + 1)

/-- Whether a tar member path, read relative to the destination directory,
resolves to a location outside it. -/
def memberEscapes (member : List String) : Bool := escapesAt member 0

/-- The fate of one tar member during extraction: written at a path (segments
relative to the destination directory) or refused by the extraction filter. -/
inductive TarWrite where
  | written (path : List String)
  | rejected
deriving Repr, DecidableEq

/-- The tar branch of the worker `installer` (lines 1585-1592): when the
running `tarfile` module has `data_filter`, extraction runs as
`extractall(filter="tar", path=base_dir)`; otherwise the worker logs the
warning "Extracting may be unsafe; consider updating Python to 3.11.4 or
greater" and runs the unfiltered `extractall(path=base_dir)`. Modelled from
the spec for the standard-library part: the "tar" data filter refuses a
member whose path escapes the destination, while unfiltered extraction writes
every member at its stated path. Returns the per-member fates and whether the
unsafe-extraction warning was logged. -/
def tarExtractAll (hasDataFilter : Bool) (members : List (List String)) :
    List TarWrite × Bool :=
  if hasDataFilter then
    (List.map (fun m => if memberEscapes m then TarWrite.rejected else .written m) members,
     false)
  else
    (List.map TarWrite.written members, true)

/-- The cleanup step of the worker `installer` (lines 1607-1608), reached only
once extraction has succeeded: `if not keep: os.unlink(archive)`. `fs` is the
list of paths present in the archive-destination directory. -/
def installerCleanup (keep : Bool) (archive : String) (fs : List String) : List String :=
  if keep then fs else List.filter (fun p => p ≠ archive) fs

/-- The outcome of dispatching `args.func(args)` inside `Cli.run` (line 200):
the subcommand returns, or raises. `aqtException sh` is any `AqtException`
(aqt/exceptions.py) with `should_show_help = sh`; `otherError cls` is any
other exception class deriving from `Exception`; `keyboardInterrupt` and
`systemExit` derive only from `BaseException` and match neither `except`
clause. -/
inductive DispatchOutcome where
  | completes
  | aqtException (should_show_help : Bool)
  | otherError (cls : String)
  | keyboardInterrupt
  | systemExit
deriving Repr, DecidableEq

/-- What `Cli.run` does with a dispatch outcome: return an exit code (also
recording whether help was printed), or let the exception propagate to the
caller. -/
inductive CliRunResult where
  | exits (code : Nat) (helpShown : Bool)
  | propagates (e : DispatchOutcome)
deriving Repr, DecidableEq

/-- The constant `Cli.UNHANDLED_EXCEPTION_CODE` (line 170). -/
def UNHANDLED_EXCEPTION_CODE : Nat := 254

/-- The dispatch half of `Cli.run` (lines 199-219): 0 when the subcommand
returns; on `AqtException`, log the error, print help when the exception asks
for it, and return 1; on any other `Exception`, log the bug-report message and
return `UNHANDLED_EXCEPTION_CODE`; an exception matching neither clause
propagates. -/
def cliRun : DispatchOutcome → CliRunResult
  | .completes => .exits 0 false
  | .aqtException sh => .exits 1 sh
  | .otherError _ => .exits UNHANDLED_EXCEPTION_CODE false
  | .keyboardInterrupt => .propagates .keyboardInterrupt
  | .systemExit => .propagates .systemExit

/-- Modelled from the spec: the listener of `MyQueueListener` (aqt/helper.py,
not under src/) "drains the channel until a sentinel is observed, then exits",
re-emitting records in arrival order. `none` is the sentinel. -/
def drainQueue : List (Option String) → List String
  | [] => []
  | none :: _ => []
  | some r :: rest => r :: drainQueue rest

/-- A file whose content carries the POSIX tar magic at offset 257. -/
def tarContent : List Nat :=
  List.replicate 257 0 ++ [117, 115, 116, 97, 114, 0, 48, 48]

/-- A file whose content opens with the zip local-file-header signature. -/
def zipContent : List Nat := [80, 75, 3, 4, 20, 0]

/-- A byte sequence matching neither the tar nor the zip signature. -/
def rawContent : List Nat := [55, 122, 188, 175, 39, 28]

/-- A download schedule whose first two attempts end in a checksum mismatch
and whose third succeeds, for exercising the retry loop. -/
def c2Download (attempt : Nat) (_url : String) : Except WorkerExc Unit :=
  if attempt < 2 then .error .archiveChecksumError else .ok ()

/-- A package carrying a nonblank install subpath. -/
def pkgWithDest : QtPackage :=
  ⟨"qtbase", "https://download.qt.io", "qtbase.7z", "online/qtbase.7z",
   "qt6_660/gcc_64", ""⟩

/-- A package whose install subpath is empty, as regular Qt packages that
unpack at the root of the base directory have. -/
def pkgNoDest : QtPackage :=
  ⟨"qtbase", "https://download.qt.io", "qtbase.7z", "online/qtbase.7z", "", ""⟩

/-- Whether `needle` occurs contiguously inside `hay`. -/
def hasSub (hay needle : List Char) : Bool :=
  match hay with
  | [] => decide (needle = [])
  | _ :: rest => decide (List.take needle.length hay = needle) || hasSub rest needle

/-! Helper lemmas about the retry combinators and the listener drain. -/

/-- Retrying succeeds when the first `k` attempts fail acceptably, the budget
covers them, and attempt `k` succeeds. -/
theorem retry_on_errors_ok_after {α : Type} (action : Nat → Except WorkerExc α)
    (acc : WorkerExc → Bool) (a : α) :
    ∀ (k r i : Nat), k ≤ r →
      (∀ j, j < k → ∃ e, action (i + j) = .error e ∧ acc e = true) →
      action (i + k) = .ok a →
      retry_on_errors action acc r i = .ok a := by
  intro k
  induction k with
  | zero =>
    intro r i _ _ hok
    rw [Nat.add_zero] at hok
    cases r with
    | zero => simpa [retry_on_errors] using hok
    | succ r' => simp [retry_on_errors, hok]
  | succ n ih =>
    intro r i hle hfail hok
    obtain ⟨e, he, hacc⟩ := hfail 0 (Nat.succ_pos n)
    rw [Nat.add_zero] at he
    cases r with
    | zero => omega
    | succ r' =>
      simp only [retry_on_errors, he, hacc, if_true]
      refine ih r' (i + 1) (Nat.le_of_succ_le_succ hle) ?_ ?_
      · intro j hj
        obtain ⟨e', he', hacc'⟩ := hfail (j + 1) (Nat.succ_lt_succ hj)
        exact ⟨e', by rw [show i + 1 + j = i + (j + 1) by omega]; exact he', hacc'⟩
      · rw [show i + 1 + n = i + (n + 1) by omega]; exact hok

/-- Retrying gives up with the acceptable error once every attempt in the
budget fails with it. -/
theorem retry_on_errors_exhaust {α : Type} (action : Nat → Except WorkerExc α)
    (acc : WorkerExc → Bool) (e : WorkerExc) (hacc : acc e = true) :
    ∀ (r i : Nat), (∀ j, j ≤ r → action (i + j) = .error e) →
      retry_on_errors action acc r i = .error e := by
  intro r
  induction r with
  | zero =>
    intro i hall
    have h0 := hall 0 (Nat.le_refl 0)
    rw [Nat.add_zero] at h0
    simpa [retry_on_errors] using h0
  | succ n ih =>
    intro i hall
    have h0 := hall 0 (Nat.zero_le _)
    rw [Nat.add_zero] at h0
    simp only [retry_on_errors, h0, hacc, if_true]
    refine ih (i + 1) ?_
    intro j hj
    rw [show i + 1 + j = i + (j + 1) by omega]
    exact hall (j + 1) (Nat.succ_le_succ hj)

/-- An unacceptable error on the first attempt propagates with no retry. -/
theorem retry_on_errors_fatal {α : Type} (action : Nat → Except WorkerExc α)
    (acc : WorkerExc → Bool) (e : WorkerExc) (r i : Nat)
    (he : action i = .error e) (hacc : acc e = false) :
    retry_on_errors action acc r i = .error e := by
  cases r with
  | zero => simpa [retry_on_errors] using he
  | succ n => simp [retry_on_errors, he, hacc]

/-- Every record enqueued before the sentinel is re-emitted by the drain. -/
theorem drainQueue_complete (records : List String) :
    drainQueue (List.map some records ++ [none]) = records := by
  induction records with
  | nil => rfl
  | cons r rest ih => simpa [drainQueue] using ih

/-! The claims. -/

/-- C1: when a worker task raises during pool execution, `run_installer`
classifies the failure before re-raising: `PermissionError` surfaces as
`DiskAccessNotPermitted`; an `OSError` with errno `ENOSPC` as `OutOfDiskSpace`;
`KeyboardInterrupt` as `CliKeyboardInterrupt`; `MemoryError` as `OutOfMemory`
whose message and suggestions depend on whether the configured concurrency is
greater than 1 (then: lower the concurrency; else: free memory), both
suggesting an external extraction tool; any other `OSError` and any other
exception is re-raised unchanged. -/
theorem c1_failure_classification (archives : List Aqt.QtPackage)
    (base_dir : String) (concurrency : Nat) (is64 : Bool) (cls : String)
    (en : Option Int) :
    (Aqt.run_installer archives base_dir concurrency is64 false
        (.error .permissionError)).2
      = .error (.diskAccessNotPermitted
          ("Failed to write to base directory at " ++ base_dir)
          ["Check that the destination is writable and does not already contain files owned by another user."]) ∧
    (Aqt.run_installer archives base_dir concurrency is64 false
        (.error (.osError cls en))).2
      = .error (if en = some Aqt.ENOSPC then
          Aqt.Raised.outOfDiskSpace "Insufficient disk space to complete installation."
            ["Check available disk space.", "Check size requirements for installation."]
        else .reraised (.osError cls en)) ∧
    (Aqt.run_installer archives base_dir concurrency is64 false
        (.error .keyboardInterrupt)).2
      = .error (.cliKeyboardInterrupt "Installer halted by keyboard interrupt.") ∧
    (Aqt.run_installer archives base_dir concurrency is64 false
        (.error .memoryError)).2
      = .error (if concurrency > 1 then
          Aqt.Raised.outOfMemory
            "Out of memory when downloading and extracting archives in parallel."
            ["Please reduce your 'concurrency' setting (see " ++ Aqt.memory_docs_url ++ ")",
             Aqt.alt_extractor_msg]
        else
          Aqt.Raised.outOfMemory
            "Out of memory when downloading and extracting archives."
            ["Please free up more memory.", Aqt.alt_extractor_msg]) ∧
    (Aqt.run_installer archives base_dir concurrency is64 false
        (.error (.exception cls))).2
      = .error (.reraised (.exception cls)) ∧
    (Aqt.run_installer archives base_dir concurrency is64 false
        (.error .systemExit)).2
      = .error (.reraised .systemExit) :=
  ⟨rfl, rfl, rfl, rfl, rfl, rfl⟩

/-- C10: `Cli.run` maps the dispatch of a subcommand to exit code 0 when it
completes, 1 when it raises an `AqtException` (printing help exactly when the
exception asks for it), and `UNHANDLED_EXCEPTION_CODE` = 254 for any other
`Exception`; but an exception deriving only from `BaseException`
(`KeyboardInterrupt`, `SystemExit`) matches neither `except` clause and
propagates to the caller, so the claim's "never propagates an exception" part
fails for those. -/
theorem c10_cli_run_exit_codes (sh : Bool) (cls : String) :
    Aqt.cliRun .completes = .exits 0 false ∧
    Aqt.cliRun (.aqtException sh) = .exits 1 sh ∧
    Aqt.cliRun (.otherError cls) = .exits Aqt.UNHANDLED_EXCEPTION_CODE false ∧
    Aqt.UNHANDLED_EXCEPTION_CODE = 254 ∧
    Aqt.cliRun .keyboardInterrupt = .propagates .keyboardInterrupt ∧
    Aqt.cliRun .systemExit = .propagates .systemExit :=
  ⟨rfl, rfl, rfl, rfl, rfl, rfl⟩

/-- C10 counterexample: a `KeyboardInterrupt` raised by the dispatched
subcommand is not converted into an exit code — `Cli.run` lets it propagate,
against the claim that `Cli.run` never propagates an exception. -/
theorem c10_keyboard_interrupt_propagates :
    Aqt.cliRun .keyboardInterrupt = .propagates .keyboardInterrupt ∧
    Aqt.cliRun .systemExit ≠ .exits 0 false ∧
    Aqt.cliRun .systemExit ≠ .exits 1 false ∧
    Aqt.cliRun .systemExit ≠ .exits 254 false := by
  refine ⟨rfl, ?_, ?_, ?_⟩ <;> decide

/-- C9: after a worker task completes extraction successfully, the cleanup
step deletes the downloaded archive from the archive-destination directory
unless the keep-archives flag is set; with keep set the archive (and the whole
directory) stays, and other files are never touched either way. -/
theorem c9_archive_cleanup (keep : Bool) (archive : String) (fs : List String) :
    (archive ∈ Aqt.installerCleanup keep archive fs ↔ (keep = true ∧ archive ∈ fs)) ∧
    (keep = true → Aqt.installerCleanup keep archive fs = fs) ∧
    (∀ p, p ≠ archive →
      (p ∈ Aqt.installerCleanup keep archive fs ↔ p ∈ fs)) := by
  refine ⟨?_, ?_, ?_⟩
  · cases keep <;> simp [Aqt.installerCleanup, List.mem_filter]
  · intro h; subst h; simp [Aqt.installerCleanup]
  · intro p hp; cases keep <;> simp [Aqt.installerCleanup, List.mem_filter, hp]

/-- C9 witness: with keep unset the archive is gone and the neighbouring file
stays; with keep set the directory is untouched. -/
theorem c9_archive_cleanup_witness :
    (("qtbase.7z" : String) ∈ Aqt.installerCleanup false "qtbase.7z" ["qtbase.7z", "other.7z"]
       ↔ (false = true ∧ ("qtbase.7z" : String) ∈ ["qtbase.7z", "other.7z"])) ∧
    (("other.7z" : String) ∈ Aqt.installerCleanup false "qtbase.7z" ["qtbase.7z", "other.7z"]
       ↔ ("other.7z" : String) ∈ ["qtbase.7z", "other.7z"]) ∧
    Aqt.installerCleanup true "qtbase.7z" ["qtbase.7z", "other.7z"] = ["qtbase.7z", "other.7z"] :=
  ⟨(c9_archive_cleanup false "qtbase.7z" ["qtbase.7z", "other.7z"]).1,
   (c9_archive_cleanup false "qtbase.7z" ["qtbase.7z", "other.7z"]).2.2 "other.7z" (by decide),
   (c9_archive_cleanup true "qtbase.7z" ["qtbase.7z", "other.7z"]).2.1 rfl⟩

/-- C3: the extractor chooses its strategy from file content alone, never the
file name: two files with equal content get equal strategies whatever their
names; and the priority order is fixed — tar-family content takes the tar
path; otherwise zip content takes the zip path; otherwise the built-in py7zr
library when no external command was configured, else the configured external
command. -/
theorem c3_content_dispatch :
    (∀ (a b : Aqt.ArchiveFile) (cmd : Option String), a.content = b.content →
       Aqt.chooseExtraction a cmd = Aqt.chooseExtraction b cmd) ∧
    (∀ (a : Aqt.ArchiveFile) (cmd : Option String),
       Aqt.is_tarfile a.content = true → Aqt.chooseExtraction a cmd = .tarPath) ∧
    (∀ (a : Aqt.ArchiveFile) (cmd : Option String),
       Aqt.is_tarfile a.content = false → Aqt.is_zipfile a.content = true →
       Aqt.chooseExtraction a cmd = .zipPath) ∧
    (∀ a : Aqt.ArchiveFile,
       Aqt.is_tarfile a.content = false → Aqt.is_zipfile a.content = false →
       Aqt.chooseExtraction a none = .py7zPath) ∧
    (∀ (a : Aqt.ArchiveFile) (c : String),
       Aqt.is_tarfile a.content = false → Aqt.is_zipfile a.content = false →
       Aqt.chooseExtraction a (some c) = .externalPath c) := by
  refine ⟨?_, ?_, ?_, ?_, ?_⟩
  · intro a b cmd h; simp [Aqt.chooseExtraction, h]
  · intro a cmd h; simp [Aqt.chooseExtraction, h]
  · intro a cmd ht hz; simp [Aqt.chooseExtraction, ht, hz]
  · intro a ht hz; simp [Aqt.chooseExtraction, ht, hz]
  · intro a c ht hz; simp [Aqt.chooseExtraction, ht, hz]

/-- C3 witness: the spec's three-file test, with file names chosen to
contradict the content on purpose — a tar container named `.zip` still takes
the tar path, a zip container named `.tar` the zip path, and an unrecognised
content named `.tar` the py7zr path or the external command. -/
theorem c3_content_dispatch_witness :
    Aqt.chooseExtraction ⟨"pkg.zip", tarContent⟩ (some "7z") = .tarPath ∧
    Aqt.chooseExtraction ⟨"pkg.tar", zipContent⟩ (some "7z") = .zipPath ∧
    Aqt.chooseExtraction ⟨"pkg.tar", rawContent⟩ none = .py7zPath ∧
    Aqt.chooseExtraction ⟨"pkg.tar", rawContent⟩ (some "7zr") = .externalPath "7zr" :=
  ⟨c3_content_dispatch.2.1 _ _ (by decide),
   c3_content_dispatch.2.2.1 _ _ (by decide) (by decide),
   c3_content_dispatch.2.2.2.1 _ (by decide) (by decide),
   c3_content_dispatch.2.2.2.2 _ _ (by decide) (by decide)⟩

/-- C4 counterexample: on a runtime whose `tarfile` lacks `data_filter`
(Python below 3.11.4), the worker falls back to the unfiltered `extractall`
(logging only a warning), and a member path climbing out of the destination is
written outside it — the claim that tar extraction never writes outside the
destination directory fails there. -/
theorem c4_unfiltered_escape :
    (Aqt.tarExtractAll false [["..", "escape.txt"]]).1
      = [Aqt.TarWrite.written ["..", "escape.txt"]] ∧
    Aqt.memberEscapes ["..", "escape.txt"] = true ∧
    (Aqt.tarExtractAll false [["..", "escape.txt"]]).2 = true := by
  refine ⟨rfl, by decide, rfl⟩

/-- C4 (amended): when the running `tarfile` module provides `data_filter`,
the worker extracts with the "tar" filter and no member is ever written
outside the destination directory (escaping members are refused, as the
concrete rejected member shows), and no unsafe-extraction warning is logged;
without `data_filter` the worker logs the warning and extracts unfiltered. -/
theorem c4_tar_filter_safety :
    (∀ (members : List (List String)) (p : List String),
       Aqt.TarWrite.written p ∈ (Aqt.tarExtractAll true members).1 →
       Aqt.memberEscapes p = false) ∧
    (Aqt.tarExtractAll true [["..", "escape.txt"]]).1 = [Aqt.TarWrite.rejected] ∧
    (∀ members, (Aqt.tarExtractAll true members).2 = false) ∧
    (∀ members, (Aqt.tarExtractAll false members).2 = true) := by
  refine ⟨?_, by decide, fun _ => rfl, fun _ => rfl⟩
  intro members p hp
  simp only [Aqt.tarExtractAll, if_true, List.mem_map] at hp
  obtain ⟨m, _, hm⟩ := hp
  by_cases hesc : Aqt.memberEscapes m = true
  · rw [if_pos hesc] at hm; exact absurd hm (by simp)
  · rw [if_neg hesc] at hm
    cases hm
    exact Bool.eq_false_iff.mpr hesc

/-- C4 witness: a benign member survives the filter and indeed stays inside
the destination. -/
theorem c4_tar_filter_safety_witness :
    Aqt.TarWrite.written ["bin", "qmake"] ∈ (Aqt.tarExtractAll true [["bin", "qmake"]]).1 ∧
    Aqt.memberEscapes ["bin", "qmake"] = false :=
  ⟨by decide, c4_tar_filter_safety.1 [["bin", "qmake"]] ["bin", "qmake"] (by decide)⟩

/-- C2: the worker wraps the download in a retry loop whose only acceptable
error class is `ArchiveChecksumError`: a run of checksum failures within the
configured retry count is retried until an attempt succeeds; when every
attempt in the budget fails with a checksum error, the checksum error
propagates; any other error propagates at once; and a connection failure is
handled inside a single attempt by falling back to the next mirror. -/
theorem c2_checksum_retry_policy :
    (∀ e, Aqt.isArchiveChecksumError e = true ↔ e = Aqt.WorkerExc.archiveChecksumError) ∧
    (∀ (download : Nat → String → Except Aqt.WorkerExc Unit) (base : String)
       (fallbacks : List String) (maxRetries k : Nat),
       k ≤ maxRetries →
       (∀ j, j < k → Aqt.retry_on_bad_connection (download j) (base :: fallbacks)
          = .error .archiveChecksumError) →
       Aqt.retry_on_bad_connection (download k) (base :: fallbacks) = .ok () →
       Aqt.installerDownload download base fallbacks maxRetries = .ok ()) ∧
    (∀ (download : Nat → String → Except Aqt.WorkerExc Unit) (base : String)
       (fallbacks : List String) (maxRetries : Nat),
       (∀ j, j ≤ maxRetries → Aqt.retry_on_bad_connection (download j) (base :: fallbacks)
          = .error .archiveChecksumError) →
       Aqt.installerDownload download base fallbacks maxRetries
         = .error .archiveChecksumError) ∧
    (∀ (download : Nat → String → Except Aqt.WorkerExc Unit) (base : String)
       (fallbacks : List String) (maxRetries : Nat) (e : Aqt.WorkerExc),
       Aqt.isArchiveChecksumError e = false →
       Aqt.retry_on_bad_connection (download 0) (base :: fallbacks) = .error e →
       Aqt.installerDownload download base fallbacks maxRetries = .error e) ∧
    (∀ (dl : String → Except Aqt.WorkerExc Unit) (base mirror : String)
       (rest : List String),
       dl base = .error .connectionError → dl mirror = .ok () →
       Aqt.retry_on_bad_connection dl (base :: mirror :: rest) = .ok ()) := by
  refine ⟨?_, ?_, ?_, ?_, ?_⟩
  · intro e; cases e <;> simp [Aqt.isArchiveChecksumError]
  · intro download base fallbacks maxRetries k hk hfail hok
    refine Aqt.retry_on_errors_ok_after _ _ () k maxRetries 0 hk ?_ ?_
    · intro j hj
      exact ⟨.archiveChecksumError, by rw [Nat.zero_add]; exact hfail j hj, rfl⟩
    · rw [Nat.zero_add]; exact hok
  · intro download base fallbacks maxRetries hall
    refine Aqt.retry_on_errors_exhaust _ _ .archiveChecksumError rfl maxRetries 0 ?_
    intro j hj
    rw [Nat.zero_add]; exact hall j hj
  · intro download base fallbacks maxRetries e hne h0
    exact Aqt.retry_on_errors_fatal _ _ e maxRetries 0 h0 hne
  · intro dl base mirror rest hbase hmirror
    simp [Aqt.retry_on_bad_connection, hbase, hmirror]

/-- C2 witness: with `max_retries_on_checksum_error = 3`, two checksum
failures followed by a success make the download step succeed overall. -/
theorem c2_checksum_retry_policy_witness :
    (2 ≤ 3) ∧
    Aqt.installerDownload c2Download "https://download.qt.io" [] 3 = .ok () :=
  ⟨by decide,
   c2_checksum_retry_policy.2.1 c2Download "https://download.qt.io" [] 3 2
     (by decide) (fun j hj => by interval_cases j <;> rfl) rfl⟩

/-- C5 (amended): on every failure that one of the `except` clauses of
`run_installer` matches — every exception deriving from `Exception`, and
`KeyboardInterrupt` — the worker pool is terminated and then joined (never
closed, so in-flight tasks are abandoned, not awaited) before the classified
or re-raised error returns to the caller; a `BaseException` outside those
clauses, such as `SystemExit`, propagates without the pool being terminated. -/
theorem c5_pool_terminated_on_failure (archives : List Aqt.QtPackage)
    (base_dir : String) (concurrency : Nat) (is64 : Bool) (e : Aqt.PoolExc)
    (hc : e.caught = true) :
    (Aqt.run_installer archives base_dir concurrency is64 false (.error e)).1
      = [.listenerStart,
         .poolCreate (Aqt.poolArgs is64 concurrency).1 (Aqt.poolArgs is64 concurrency).2,
         .poolStarmap,
         .logWarning ("Caught " ++ e.clsName ++ ", terminating installer workers"),
         .poolTerminate, .poolJoin, .enqueueSentinel, .listenerStop] ∧
    Aqt.Event.poolClose
      ∉ (Aqt.run_installer archives base_dir concurrency is64 false (.error e)).1 ∧
    (Aqt.run_installer archives base_dir concurrency is64 false (.error e)).2
      = .error (Aqt.classify base_dir concurrency e) := by
  cases e <;> first
    | exact absurd hc (by decide)
    | exact ⟨rfl, by simp [Aqt.run_installer, Aqt.PoolExc.caught], rfl⟩

/-- C5 witness: a `KeyboardInterrupt` from the pool terminates the workers and
surfaces the classified error. -/
theorem c5_pool_terminated_on_failure_witness :
    Aqt.PoolExc.caught .keyboardInterrupt = true ∧
    (Aqt.run_installer [] "/opt/qt" 2 true false (.error .keyboardInterrupt)).2
      = .error (Aqt.classify "/opt/qt" 2 .keyboardInterrupt) :=
  ⟨rfl, (c5_pool_terminated_on_failure [] "/opt/qt" 2 true .keyboardInterrupt rfl).2.2⟩

/-- C5 counterexample: a `SystemExit` raised out of `pool.starmap` matches no
`except` clause of `run_installer` (it derives from `BaseException` but not
from `Exception`), so `close_worker_pool_on_exception` never runs: the failure
propagates with the pool neither terminated nor joined, against the claim that
every failure branch terminates and joins the pool. -/
theorem c5_systemexit_skips_termination :
    (Aqt.run_installer [] "/opt/qt" 2 true false (.error .systemExit)).1
      = [.listenerStart, .poolCreate 2 4, .poolStarmap, .enqueueSentinel, .listenerStop] ∧
    Aqt.Event.poolTerminate
      ∉ (Aqt.run_installer [] "/opt/qt" 2 true false (.error .systemExit)).1 ∧
    Aqt.Event.poolJoin
      ∉ (Aqt.run_installer [] "/opt/qt" 2 true false (.error .systemExit)).1 ∧
    (Aqt.run_installer [] "/opt/qt" 2 true false (.error .systemExit)).2
      = .error (.reraised .systemExit) := by
  exact ⟨rfl, by decide, by decide, rfl⟩

/-- C6 (amended): on every non-dry-run invocation of `run_installer`, whatever
the pool outcome, the log sentinel is enqueued and the listener stopped
exactly once each, in that order, as the very last actions; and the modelled
listener re-emits every record enqueued before the sentinel, so none is lost.
(On a dry-run invocation the function returns before the listener exists, so
neither action happens — see the counterexample.) -/
theorem c6_sentinel_and_stop_once (archives : List Aqt.QtPackage)
    (base_dir : String) (concurrency : Nat) (is64 : Bool)
    (outcome : Except Aqt.PoolExc Unit) :
    (∃ pre, (Aqt.run_installer archives base_dir concurrency is64 false outcome).1
        = pre ++ [Aqt.Event.enqueueSentinel, Aqt.Event.listenerStop] ∧
      Aqt.Event.enqueueSentinel ∉ pre ∧ Aqt.Event.listenerStop ∉ pre) ∧
    (∀ records : List String,
      Aqt.drainQueue (List.map some records ++ [none]) = records) := by
  refine ⟨?_, Aqt.drainQueue_complete⟩
  rcases outcome with e | _
  · by_cases hc : e.caught = true
    · refine ⟨[.listenerStart,
               .poolCreate (Aqt.poolArgs is64 concurrency).1 (Aqt.poolArgs is64 concurrency).2,
               .poolStarmap,
               .logWarning ("Caught " ++ e.clsName ++ ", terminating installer workers"),
               .poolTerminate, .poolJoin], ?_, by simp, by simp⟩
      simp [Aqt.run_installer, hc]
    · refine ⟨[.listenerStart,
               .poolCreate (Aqt.poolArgs is64 concurrency).1 (Aqt.poolArgs is64 concurrency).2,
               .poolStarmap], ?_, by simp, by simp⟩
      simp [Aqt.run_installer, hc]
  · exact ⟨[.listenerStart,
            .poolCreate (Aqt.poolArgs is64 concurrency).1 (Aqt.poolArgs is64 concurrency).2,
            .poolStarmap, .poolClose, .poolJoin], rfl, by simp, by simp⟩

/-- C6 counterexample: with dry-run enabled, `run_installer` returns before
the listener is ever created: no sentinel is enqueued and no listener is
started or stopped, against the claim that this happens exactly once on every
exit path including dry-run. -/
theorem c6_dry_run_no_listener :
    Aqt.Event.enqueueSentinel ∉ (Aqt.run_installer [] "/opt/qt" 2 true true (.ok ())).1 ∧
    Aqt.Event.listenerStop ∉ (Aqt.run_installer [] "/opt/qt" 2 true true (.ok ())).1 ∧
    Aqt.Event.listenerStart ∉ (Aqt.run_installer [] "/opt/qt" 2 true true (.ok ())).1 := by
  exact ⟨by decide, by decide, by decide⟩

/-- C7 (amended): the worker pool's process count equals the configured
concurrency on every platform; what changes on a 32-bit platform is the
fourth positional `Pool` argument, `maxtasksperchild`, lowered from 4 to 1 so
that each worker process is recycled after fewer tasks to bound memory. -/
theorem c7_pool_size (is64 : Bool) (concurrency : Nat) :
    (Aqt.poolArgs is64 concurrency).1 = concurrency ∧
    (Aqt.poolArgs is64 concurrency).2 = (if is64 then 4 else 1) ∧
    (∀ (archives : List Aqt.QtPackage) (base_dir : String)
       (outcome : Except Aqt.PoolExc Unit),
       Aqt.Event.poolCreate concurrency (if is64 then 4 else 1)
         ∈ (Aqt.run_installer archives base_dir concurrency is64 false outcome).1) ∧
    Aqt.is_64bit (2 ^ 63 - 1) = true ∧ Aqt.is_64bit (2 ^ 31 - 1) = false := by
  refine ⟨?_, ?_, ?_, by decide, by decide⟩
  · cases is64 <;> rfl
  · cases is64 <;> rfl
  · intro archives base_dir outcome
    rcases outcome with e | _
    · cases is64 <;> cases e <;>
        simp [Aqt.run_installer, Aqt.poolArgs, Aqt.PoolExc.caught]
    · cases is64 <;> simp [Aqt.run_installer, Aqt.poolArgs]

/-- C7 counterexample: on a 32-bit platform the pool is still created with
`processes = concurrency` — 7 workers for concurrency 7, and 9 for 9, so no
smaller fixed pool size exists; the 32-bit difference is `maxtasksperchild`
(1 instead of 4). -/
theorem c7_32bit_pool_follows_concurrency :
    (Aqt.poolArgs false 7).1 = 7 ∧
    (Aqt.poolArgs false 9).1 = 9 ∧
    (Aqt.poolArgs false 7).2 = 1 ∧
    (Aqt.poolArgs true 7).2 = 4 ∧
    Aqt.Event.poolCreate 7 1
      ∈ (Aqt.run_installer [] "/opt/qt" 7 false false (.ok ())).1 := by
  exact ⟨rfl, rfl, rfl, rfl, by decide⟩

/-- C8 (amended): a dry-run invocation of `run_installer` performs no network
or filesystem action and never starts the listener or the worker pool — its
whole trace is log lines — and returns success; it prints a header, one line
per package naming the package and its remote archive path, and a final count
line equal to the number of packages; the install subpath is appended to a
package's line exactly when that subpath is nonblank. -/
theorem c8_dry_run_report (archives : List Aqt.QtPackage) (base_dir : String)
    (concurrency : Nat) (is64 : Bool) (outcome : Except Aqt.PoolExc Unit) :
    Aqt.run_installer archives base_dir concurrency is64 true outcome
      = (List.map Aqt.Event.logInfo (Aqt.dryRunOutput archives), .ok ()) ∧
    (∀ ev, ev ∈ (Aqt.run_installer archives base_dir concurrency is64 true outcome).1 →
       ∃ msg, ev = Aqt.Event.logInfo msg) ∧
    (Aqt.dryRunOutput archives).length = archives.length + 2 ∧
    (Aqt.dryRunOutput archives).getLast?
      = some ("Total packages: " ++ toString archives.length) ∧
    (∀ arc : Aqt.QtPackage, Aqt.pyStrip arc.archive_install_path ≠ "" →
       Aqt.dryRunLine arc
         = Aqt.dryRunLineBase arc ++ " -> " ++ arc.archive_install_path) ∧
    (∀ arc : Aqt.QtPackage, Aqt.pyStrip arc.archive_install_path = "" →
       Aqt.dryRunLine arc = Aqt.dryRunLineBase arc) := by
  refine ⟨rfl, ?_, ?_, ?_, ?_, ?_⟩
  · intro ev hev
    have hev' : ev ∈ List.map Aqt.Event.logInfo (Aqt.dryRunOutput archives) := hev
    rcases List.mem_map.mp hev' with ⟨m, _, rfl⟩
    exact ⟨m, rfl⟩
  · simp [Aqt.dryRunOutput]
  · rw [show Aqt.dryRunOutput archives
        = ("DRY RUN: Would download and install the following:"
            :: List.map Aqt.dryRunLine archives)
          ++ ["Total packages: " ++ toString archives.length] from by
          simp [Aqt.dryRunOutput]]
    exact List.getLast?_concat _
  · intro arc h
    have hp : arc.archive_install_path ≠ "" := fun h0 => h (by rw [h0]; rfl)
    simp only [Aqt.dryRunLine]
    rw [if_pos ⟨hp, h⟩]
  · intro arc h
    simp only [Aqt.dryRunLine]
    rw [if_neg (fun hc => hc.2 h)]

/-- C8 witness: a dry run over one package with a nonblank install subpath
prints only log lines, succeeds, and that package's line carries the
destination suffix. -/
theorem c8_dry_run_report_witness :
    Aqt.pyStrip "qt6_660/gcc_64" ≠ "" ∧
    Aqt.dryRunLine pkgWithDest
      = Aqt.dryRunLineBase pkgWithDest ++ " -> " ++ "qt6_660/gcc_64" ∧
    Aqt.run_installer [pkgWithDest] "/opt/qt" 2 true true (.ok ())
      = (List.map Aqt.Event.logInfo (Aqt.dryRunOutput [pkgWithDest]), .ok ()) :=
  ⟨by decide,
   (c8_dry_run_report [pkgWithDest] "/opt/qt" 2 true (.ok ())).2.2.2.2.1
     pkgWithDest (by decide),
   (c8_dry_run_report [pkgWithDest] "/opt/qt" 2 true (.ok ())).1⟩

/-- C8 counterexample: the dry-run line for a package with an empty install
subpath is exactly the package name and remote archive path — it contains no
destination arrow and does not name the base directory, against the claim
that every printed line names the package's install destination. -/
theorem c8_line_without_destination :
    Aqt.dryRunLine pkgNoDest = "  - qtbase: online/qtbase.7z" ∧
    hasSub (Aqt.dryRunLine pkgNoDest).toList " -> ".toList = false ∧
    hasSub (Aqt.dryRunLine pkgNoDest).toList "/opt/qt".toList = false ∧
    (Aqt.run_installer [pkgNoDest] "/opt/qt" 2 true true (.ok ())).1
      = [Aqt.Event.logInfo "DRY RUN: Would download and install the following:",
         Aqt.Event.logInfo "  - qtbase: online/qtbase.7z",
         Aqt.Event.logInfo "Total packages: 1"] := by
  refine ⟨by decide, by decide, by decide, by decide⟩

end Aqt
